import Mathlib

/-!
Verification development for the Aura engine sources: a shallow embedding of
the per-frame job scheduler (JobSystem in Untitled11.py / Untitled7.py), the
network state replicator (NetworkAuthorityManager in Untitled9.py /
Untitled7.py), the weapon manager (Untitled15.py / Untitled6.py) and the
physics step (Untitled15.py, Untitled7.py, main.py), together with theorems
settling the frozen claims about these components.

Numeric convention: Python floats are embedded as exact rationals; all the
comparisons and updates the claims speak about (fire delays, gravity
integration, spread offsets) are arithmetic on concrete decimal literals, so
the rational embedding is faithful for them.  The one genuinely real-valued
operation, vector re-normalization inside try_fire, is given its semantics
over the reals by dirValR below.
-/

namespace Aura

/-! ### Vectors -/

/-- A 3-component vector of rationals, embedding numpy arrays of shape (3,). -/
def Vec3 : Type := ℚ × ℚ × ℚ

instance : DecidableEq Vec3 := inferInstanceAs (DecidableEq (ℚ × ℚ × ℚ))

instance : Repr Vec3 := inferInstanceAs (Repr (ℚ × ℚ × ℚ))

/-- Componentwise vector addition, embedding numpy elementwise addition. -/
def vadd (a b : Vec3) : Vec3 := (a.1 + b.1, a.2.1 + b.2.1, a.2.2 + b.2.2)

/-- Scalar multiplication, embedding numpy scalar-times-array. -/
def vscale (c : ℚ) (v : Vec3) : Vec3 := (c * v.1, c * v.2.1, c * v.2.2)

/-- GRAVITY constant from main.py: np.array([0, -9.8, 0]). -/
def GRAVITY : Vec3 := (0, -98/10, 0)

/-! ### Actors

The Actor structure is the union of the fields of the AuraObject classes
(Untitled15.py, Untitled7.py, Untitled6.py, main.py) that the claims touch:
identity, kinematic state, health, the static / sprinting / bot flags, the
replicated weapon id, and main.py's force accumulator with its cached
inverse mass. -/

structure Actor where
  name : String
  mass : ℚ
  position : Vec3
  linear_velocity : Vec3
  is_static : Bool
  is_sprinting : Bool
  is_bot : Bool
  health : ℚ
  active_weapon_id : Option String
  force_accumulator : Vec3
  inv_mass : ℚ
  deriving DecidableEq, Repr

/-! ### Physics step -/

/-- One actor's update inside OCPE_GameEngine_Mock.run_physics_step
(Untitled15.py): static actors are skipped; otherwise
linear_velocity[1] -= 9.8 * dt and then position += linear_velocity * dt
(with the already-updated velocity). -/
def stepActor (dt : ℚ) (a : Actor) : Actor :=
  if a.is_static then a
  else
    let v : Vec3 := (a.linear_velocity.1, a.linear_velocity.2.1 - 98/10 * dt,
      a.linear_velocity.2.2)
    { a with linear_velocity := v, position := vadd a.position (vscale dt v) }

/-- One actor's update inside run_physics_step of Untitled7.py / Untitled6.py:
same as stepActor but position += linear_velocity * dt * move_mult with
move_mult = SPRINT_MULTIPLIER (2.5) when the actor is sprinting. -/
def stepActorSprint (dt : ℚ) (a : Actor) : Actor :=
  if a.is_static then a
  else
    let mult : ℚ := if a.is_sprinting then 5/2 else 1
    let v : Vec3 := (a.linear_velocity.1, a.linear_velocity.2.1 - 98/10 * dt,
      a.linear_velocity.2.2)
    { a with linear_velocity := v,
             position := vadd a.position (vscale (dt * mult) v) }

/-- One body's update inside run_rigid_body_integration (main.py): static
bodies are skipped via continue; otherwise apply_force(mass * GRAVITY),
acceleration = force_accumulator * inv_mass, velocity += acceleration * dt,
position += velocity * dt, then clear_accumulators. -/
def integrateBody (dt : ℚ) (b : Actor) : Actor :=
  if b.is_static then b
  else
    let f := vadd b.force_accumulator (vscale b.mass GRAVITY)
    let acc := vscale b.inv_mass f
    let v := vadd b.linear_velocity (vscale dt acc)
    { b with linear_velocity := v,
             position := vadd b.position (vscale dt v),
             force_accumulator := (0, 0, 0) }

/-- run_physics_step (Untitled15.py): the for-loop over engine.actors. -/
def runPhysicsStep (dt : ℚ) (actors : List Actor) : List Actor :=
  actors.map (stepActor dt)

/-- run_rigid_body_integration (main.py): the for-loop over game_objects. -/
def runRigidBodyIntegration (actors : List Actor) (dt : ℚ) : List Actor :=
  actors.map (integrateBody dt)

/-! ### State packets (NetworkAuthorityManager) -/

/-- Values stored in a state-packet dict: strings, scalars, or 3-vectors
(a numpy .tolist() of a 3-component array). -/
inductive PValue where
  | str (s : String)
  | num (q : ℚ)
  | vec3 (v : Vec3)
  deriving DecidableEq, Repr

/-- A state packet is the Python dict: an ordered list of key/value pairs. -/
def Packet : Type := List (String × PValue)

instance : DecidableEq Packet := inferInstanceAs (DecidableEq (List (String × PValue)))

/-- generate_state_packet from Untitled9.py: keys id, pos, vel, health,
weapon in that order; weapon uses getattr(actor, 'active_weapon_id', 'None'). -/
def generateStatePacket (a : Actor) : Packet :=
  [("id", PValue.str a.name),
   ("pos", PValue.vec3 a.position),
   ("vel", PValue.vec3 a.linear_velocity),
   ("health", PValue.num a.health),
   ("weapon", PValue.str (a.active_weapon_id.getD "None"))]

/-- generate_state_packet from Untitled7.py: same except there is no vel
entry at all. -/
def generateStatePacket7 (a : Actor) : Packet :=
  [("id", PValue.str a.name),
   ("pos", PValue.vec3 a.position),
   ("health", PValue.num a.health),
   ("weapon", PValue.str (a.active_weapon_id.getD "None"))]

/-- sync_all_actors from Untitled9.py: a list comprehension producing one
packet per actor of engine.actors in order.  The method performs no write to
any actor, which the embedding records by returning the registry unchanged
as the second component. -/
def syncAllActors (actors : List Actor) : List Packet × List Actor :=
  (actors.map generateStatePacket, actors)

/-- sync_all_actors from Untitled7.py (identical loop, Untitled7 packets). -/
def syncAllActors7 (actors : List Actor) : List Packet × List Actor :=
  (actors.map generateStatePacket7, actors)

/-- Refinement definition following the spec's wire-shape sentence: a packet
has the wire shape when it is exactly
id: string, pos: vec3, vel: vec3, health: number, weapon: string. -/
def specWireShape (p : Packet) : Bool :=
  match p with
  | [(k1, PValue.str _), (k2, PValue.vec3 _), (k3, PValue.vec3 _),
     (k4, PValue.num _), (k5, PValue.str _)] =>
      k1 == "id" && k2 == "pos" && k3 == "vel" && k4 == "health" && k5 == "weapon"
  | _ => false

/-! ### Weapon manager -/

/-- One row of WEAPON_MASTER_LIST. -/
structure WeaponData where
  damage : ℚ
  rpm : ℚ
  spread : ℚ
  mode : String
  projectiles : ℕ
  deriving DecidableEq, Repr

/-- WEAPON_MASTER_LIST from Untitled15.py (the four defined rows, in dict
insertion order). -/
def WEAPON_MASTER_LIST : List (String × WeaponData) :=
  [("01_PLASMA_RIFLE", ⟨55, 450, 0, "AUTO", 1⟩),
   ("02_OMEGA_SHOTGUN", ⟨15, 90, 3/2, "SEMI", 8⟩),
   ("03_RAIL_CANNON", ⟨300, 30, 0, "SINGLE", 1⟩),
   ("04_EMP_GRENADE", ⟨0, 10, 0, "SINGLE", 1⟩)]

/-- Dict lookup on the weapon table: models both the membership test
new_id in master_list and the subscript master_list[key]. -/
def wlookup (k : String) : List (String × WeaponData) → Option WeaponData
  | [] => none
  | (k2, d) :: rest => if k = k2 then some d else wlookup k rest

/-- WeaponManager state (Untitled15.py / Untitled6.py): the weapon table,
the active weapon id and the wielder's last fire time. -/
structure WeaponManager where
  master_list : List (String × WeaponData)
  active_weapon_id : String
  last_fire_time : ℚ
  deriving DecidableEq, Repr

/-- Error signalled by switch_weapon when the id is not in the table,
embedding the ERROR print of Untitled15.py. -/
inductive WeaponError where
  | unknownWeapon
  deriving DecidableEq, Repr

/-- switch_weapon from Untitled15.py: if new_id in master_list set the
active weapon, else report an error and leave the state unchanged. -/
def switchWeapon (wm : WeaponManager) (newId : String) :
    WeaponManager × Option WeaponError :=
  if (wlookup newId wm.master_list).isSome then
    ({ wm with active_weapon_id := newId }, none)
  else
    (wm, some WeaponError.unknownWeapon)

/-- switch_weapon from the abridged WeaponManager of Untitled6.py: sets
active_weapon_id unconditionally, with no table check and no error path. -/
def switchWeapon6 (wm : WeaponManager) (newId : String) : WeaponManager :=
  { wm with active_weapon_id := newId }

/-- A projectile direction as try_fire computes it: either exactly the aim
direction (spread == 0 branch) or the perturbed vector still to be divided
by its numpy norm (spread > 0 branch).  The normalized constructor keeps the
pre-division vector; its real-valued semantics is dirValR. -/
inductive Dir where
  | exact (v : Vec3)
  | normalized (v : Vec3)
  deriving DecidableEq, Repr

/-- One invocation of the external hit-test collaborator
engine.shoot_raycast(start_pos, direction, damage). -/
structure RaycastCall where
  start : Vec3
  dir : Dir
  damage : ℚ
  deriving DecidableEq, Repr

/-- Result of one try_fire call: the updated manager, whether the rate gate
let the shot through (the Firing print), and the emitted raycast calls. -/
structure FireResult where
  wm : WeaponManager
  fired : Bool
  calls : List RaycastCall
  deriving DecidableEq, Repr

/-- try_fire from Untitled15.py.  current_time stands for time.time(); offs
is the stream of random.uniform(-spread, spread) pairs, one pair per
projectile index.  Dict subscript on a missing active weapon is the KeyError
case, hence the Option.  The rate gate: if current_time - last_fire_time <
60/rpm the call is a no-op returning without any raycast; otherwise
last_fire_time := current_time and one raycast per projectile is emitted,
with the spread > 0 perturbation of the aim direction on the x and y axes. -/
def tryFire (wm : WeaponManager) (currentTime : ℚ) (playerPos playerDir : Vec3)
    (offs : ℕ → ℚ × ℚ) : Option FireResult :=
  match wlookup wm.active_weapon_id wm.master_list with
  | none => none
  | some wd =>
    let fireDelay := 60 / wd.rpm
    if currentTime - wm.last_fire_time < fireDelay then
      some ⟨wm, false, []⟩
    else
      let wm2 := { wm with last_fire_time := currentTime }
      let calls := (List.range wd.projectiles).map (fun i =>
        if 0 < wd.spread then
          let o := offs i
          ⟨playerPos, Dir.normalized (vadd playerDir (o.1, o.2, 0)), wd.damage⟩
        else
          ⟨playerPos, Dir.exact playerDir, wd.damage⟩)
      some ⟨wm2, true, calls⟩

/-- Squared euclidean norm over the rationals. -/
def sqnormQ (v : Vec3) : ℚ := v.1 * v.1 + v.2.1 * v.2.1 + v.2.2 * v.2.2

/-- Real 3-vectors, for the semantics of numpy normalization. -/
def RVec3 : Type := ℝ × ℝ × ℝ

/-- Cast a rational vector to the reals. -/
noncomputable def toR (v : Vec3) : RVec3 := ((v.1 : ℝ), (v.2.1 : ℝ), (v.2.2 : ℝ))

/-- Squared euclidean norm over the reals. -/
noncomputable def sqnormR (w : RVec3) : ℝ := w.1 * w.1 + w.2.1 * w.2.1 + w.2.2 * w.2.2

/-- Real-valued semantics of a Dir: the exact constructor is the vector
itself; the normalized constructor is the vector divided by its euclidean
norm, exactly np.linalg.norm division in try_fire. -/
noncomputable def dirValR : Dir → RVec3
  | Dir.exact v => toR v
  | Dir.normalized v =>
      let w := toR v
      let n := Real.sqrt (sqnormR w)
      (w.1 / n, w.2.1 / n, w.2.2 / n)

/-! ### Job system (worker pool)

JobSystem of Untitled11.py / Untitled7.py, embedded as a transition system.
add_job is queue.put, which appends to the FIFO queue and increments the
unfinished-tasks counter.  A worker iteration is queue.get (which removes
the head; modeled by the take step, enabled only for an idle live worker)
followed by running the job body and, only when the body does not raise,
queue.task_done (the finishOk step).  When the body raises, the exception
propagates out of _worker_loop because the except clause there only catches
queue.Empty: the worker thread dies and task_done is never called (the
finishFault step).  wait_for_completion is queue.join, which returns exactly
when the unfinished counter is zero. -/

/-- A job: an identity plus whether its body raises when run. -/
structure Job where
  id : ℕ
  faults : Bool
  deriving DecidableEq, Repr

/-- Pool state: the queued jobs, the jobs currently held by workers, the log
of jobs whose bodies have run, the queue's unfinished-tasks counter, and the
number of live worker threads. -/
structure PoolState where
  pending : List Job
  inflight : List Job
  executed : List Job
  unfinished : ℕ
  workers : ℕ
  deriving DecidableEq, Repr

/-- Pool right after JobSystem.__init__(numWorkers): empty queue, all
workers alive and idle. -/
def emptyPool (numWorkers : ℕ) : PoolState :=
  ⟨[], [], [], 0, numWorkers⟩

/-- add_job: queue.put appends and increments unfinished_tasks. -/
def submitJob (s : PoolState) (j : Job) : PoolState :=
  { s with pending := s.pending ++ [j], unfinished := s.unfinished + 1 }

/-- Pool with a batch of jobs submitted, in order, to a fresh pool. -/
def initState (jobs : List Job) (numWorkers : ℕ) : PoolState :=
  jobs.foldl submitJob (emptyPool numWorkers)

/-- Error the spec assigns to construction with worker count < 1.  The
source __init__ has no such path; mkJobSystem below records that. -/
inductive PoolConfigurationError where
  | workerCountTooSmall
  deriving DecidableEq, Repr

/-- JobSystem.__init__(num_workers): the constructor body only spawns the
workers and never validates num_workers, so construction always succeeds. -/
def mkJobSystem (numWorkers : ℕ) : Except PoolConfigurationError PoolState :=
  Except.ok (emptyPool numWorkers)

/-- One scheduler transition of the worker pool. -/
inductive Step : PoolState → PoolState → Prop where
  | take (s : PoolState) (j : Job) (rest : List Job)
      (hw : s.inflight.length < s.workers) (hp : s.pending = j :: rest) :
      Step s { pending := rest, inflight := s.inflight ++ [j],
               executed := s.executed, unfinished := s.unfinished,
               workers := s.workers }
  | finishOk (s : PoolState) (j : Job) (l1 l2 : List Job)
      (hin : s.inflight = l1 ++ j :: l2) (hf : j.faults = false) :
      Step s { pending := s.pending, inflight := l1 ++ l2,
               executed := s.executed ++ [j], unfinished := s.unfinished - 1,
               workers := s.workers }
  | finishFault (s : PoolState) (j : Job) (l1 l2 : List Job)
      (hin : s.inflight = l1 ++ j :: l2) (hf : j.faults = true) :
      Step s { pending := s.pending, inflight := l1 ++ l2,
               executed := s.executed ++ [j], unfinished := s.unfinished,
               workers := s.workers - 1 }

/-- Reachability under pool transitions. -/
def Reachable : PoolState → PoolState → Prop := Relation.ReflTransGen Step

/-- wait_for_completion returns exactly in the states where
queue.unfinished_tasks is zero. -/
def drainReturns (s : PoolState) : Prop := s.unfinished = 0

/-- The pool invariant: the multiset of submitted jobs splits into executed,
in-flight and pending jobs; each fault so far killed one worker; and the
unfinished counter is pending plus in-flight plus the faulted jobs (whose
task_done never ran). -/
def PoolInv (jobs : List Job) (numWorkers : ℕ) (s : PoolState) : Prop :=
  (s.executed ++ s.inflight ++ s.pending).Perm jobs ∧
  s.workers + (s.executed.filter (fun j => j.faults)).length = numWorkers ∧
  s.unfinished =
    s.pending.length + s.inflight.length +
      (s.executed.filter (fun j => j.faults)).length

/-! ### Frame scheduling -/

/-- The jobs a frame can submit: the physics step over the actor registry,
a per-bot AI update, the streaming/LOD update given the player position. -/
inductive FrameJob where
  | physicsStep (dt : ℚ)
  | aiUpdate (bot : String)
  | streamingUpdate (pos : Vec3)
  deriving DecidableEq, Repr

/-- Observable frame events: a job submission, the wait_for_completion
barrier, the replicator sync. -/
inductive FrameEvent where
  | submit (j : FrameJob)
  | drain
  | sync
  deriving DecidableEq, Repr

/-- execute_frame_jobs from Untitled11.py (the Untitled7.py copy is
identical): add_job(engine.run_physics_step, dt);
add_job(map_manager.update_streaming_lod, player.position);
wait_for_completion().  The AI batch job is a commented-out stub and is
never submitted. -/
def executeFrameJobsEvents (dt : ℚ) (playerPos : Vec3) : List FrameEvent :=
  [FrameEvent.submit (FrameJob.physicsStep dt),
   FrameEvent.submit (FrameJob.streamingUpdate playerPos),
   FrameEvent.drain]

/-- One iteration of the Untitled7.py driver loop as far as the claims are
concerned: execute_frame_jobs followed by network_manager.sync_all_actors. -/
def frameLoopEvents (dt : ℚ) (playerPos : Vec3) : List FrameEvent :=
  executeFrameJobsEvents dt playerPos ++ [FrameEvent.sync]

/-- Jobs submitted in an event trace. -/
def submittedFrameJobs (evs : List FrameEvent) : List FrameJob :=
  evs.filterMap (fun e =>
    match e with
    | FrameEvent.submit j => some j
    | _ => none)

/-- Refinement definition following the spec's sentence for the per-frame
job set: one physics-step job, one AI-update job per bot actor, one
streaming-update job parameterized by the player position. -/
def specFrameJobs (dt : ℚ) (actors : List Actor) (playerPos : Vec3) :
    List FrameJob :=
  [FrameJob.physicsStep dt] ++
    (actors.filter (fun a => a.is_bot)).map (fun a => FrameJob.aiUpdate a.name) ++
    [FrameJob.streamingUpdate playerPos]

/-! ### Concrete sample data used by witnesses and counterexamples -/

/-- The zero vector. -/
def vzero : Vec3 := (0, 0, 0)

/-- The straight-ahead aim direction used by InputManager.process_actions:
np.array([0.0, 0.0, -1.0]); a unit vector. -/
def aimDir : Vec3 := (0, 0, -1)

/-- A generic sample actor. -/
def sampleActor : Actor :=
  { name := "MasterPlayer", mass := 75, position := (0, 10, 0),
    linear_velocity := (0, 0, 0), is_static := false, is_sprinting := false,
    is_bot := false, health := 100, active_weapon_id := some "01_PLASMA_RIFLE",
    force_accumulator := (0, 0, 0), inv_mass := 1/75 }

/-- A static actor (like the walls BuildManager spawns or the Ground). -/
def sampleStaticActor : Actor :=
  { name := "Wall_MasterPlayer", mass := 100000, position := (0, 0, 2),
    linear_velocity := (0, 0, 0), is_static := true, is_sprinting := false,
    is_bot := false, health := 100, active_weapon_id := none,
    force_accumulator := (0, 0, 0), inv_mass := 0 }

/-- A bot actor. -/
def sampleBot : Actor :=
  { name := "OMEGA-BOT-9000", mass := 90, position := (0, 10, -5),
    linear_velocity := (0, 0, 0), is_static := false, is_sprinting := false,
    is_bot := true, health := 100, active_weapon_id := none,
    force_accumulator := (0, 0, 0), inv_mass := 1/90 }

/-- WeaponManager as constructed in Untitled15.py: plasma rifle active,
last_fire_time = 0.0. -/
def wmInitial : WeaponManager :=
  { master_list := WEAPON_MASTER_LIST,
    active_weapon_id := "01_PLASMA_RIFLE", last_fire_time := 0 }

/-- WeaponManager holding the shotgun (spread 1.5, 8 projectiles). -/
def wmShotgun : WeaponManager :=
  { master_list := WEAPON_MASTER_LIST,
    active_weapon_id := "02_OMEGA_SHOTGUN", last_fire_time := 0 }

/-- A constant offset stream for witnesses. -/
def offsConst : ℕ → ℚ × ℚ := fun _ => (1, 1/2)

/-- A zero offset stream. -/
def offsZero : ℕ → ℚ × ℚ := fun _ => (0, 0)

/-- A job whose body raises. -/
def faultJob : Job := ⟨0, true⟩

/-- Two well-behaved jobs. -/
def jobA : Job := ⟨1, false⟩

/-- Second well-behaved job. -/
def jobB : Job := ⟨2, false⟩

/-- The state of a one-worker pool right after its single worker picked up
faultJob and died executing it: queue counter stuck at one, no live worker. -/
def crashState : PoolState := ⟨[], [], [faultJob], 1, 0⟩

/-! ## Theorems -/

/-- Claim C10: for every actor whose is_static flag is true, the physics
step leaves every field of that actor unchanged, for every dt, in all three
physics-step implementations (Untitled15.py run_physics_step, the sprint
variant of Untitled7.py / Untitled6.py, and main.py
run_rigid_body_integration); only non-static actors are mutated. -/
theorem C10_static_actors_unchanged (dt : ℚ) (actors : List Actor) (i : ℕ)
    (h1 : i < actors.length) (hs : (actors.get ⟨i, h1⟩).is_static = true) :
    stepActor dt (actors.get ⟨i, h1⟩) = actors.get ⟨i, h1⟩ ∧
    stepActorSprint dt (actors.get ⟨i, h1⟩) = actors.get ⟨i, h1⟩ ∧
    integrateBody dt (actors.get ⟨i, h1⟩) = actors.get ⟨i, h1⟩ ∧
    (∃ h2 : i < (runPhysicsStep dt actors).length,
      (runPhysicsStep dt actors).get ⟨i, h2⟩ = actors.get ⟨i, h1⟩) ∧
    (∃ h3 : i < (runRigidBodyIntegration actors dt).length,
      (runRigidBodyIntegration actors dt).get ⟨i, h3⟩ = actors.get ⟨i, h1⟩) := by
  have k1 : ∀ a : Actor, a.is_static = true → stepActor dt a = a := by
    intro a ha
    simp [stepActor, ha]
  have k2 : ∀ a : Actor, a.is_static = true → stepActorSprint dt a = a := by
    intro a ha
    simp [stepActorSprint, ha]
  have k3 : ∀ a : Actor, a.is_static = true → integrateBody dt a = a := by
    intro a ha
    simp [integrateBody, ha]
  refine ⟨k1 _ hs, k2 _ hs, k3 _ hs,
    ⟨by simpa [runPhysicsStep] using h1, ?_⟩,
    ⟨by simpa [runRigidBodyIntegration] using h1, ?_⟩⟩
  · simp [runPhysicsStep]
    exact k1 _ (by simpa using hs)
  · simp [runRigidBodyIntegration]
    exact k3 _ (by simpa using hs)

/-- Witness for C10 at a concrete static wall actor. -/
theorem C10_static_actors_unchanged_witness :
    stepActor (1/60) ([sampleStaticActor].get ⟨0, by decide⟩) =
      [sampleStaticActor].get ⟨0, by decide⟩ ∧
    stepActorSprint (1/60) ([sampleStaticActor].get ⟨0, by decide⟩) =
      [sampleStaticActor].get ⟨0, by decide⟩ ∧
    integrateBody (1/60) ([sampleStaticActor].get ⟨0, by decide⟩) =
      [sampleStaticActor].get ⟨0, by decide⟩ ∧
    (∃ h2 : 0 < (runPhysicsStep (1/60) [sampleStaticActor]).length,
      (runPhysicsStep (1/60) [sampleStaticActor]).get ⟨0, h2⟩ =
        [sampleStaticActor].get ⟨0, by decide⟩) ∧
    (∃ h3 : 0 < (runRigidBodyIntegration [sampleStaticActor] (1/60)).length,
      (runRigidBodyIntegration [sampleStaticActor] (1/60)).get ⟨0, h3⟩ =
        [sampleStaticActor].get ⟨0, by decide⟩) :=
  C10_static_actors_unchanged (1/60) [sampleStaticActor] 0 (by decide) (by decide)

/-- Claim C4: sync_all_actors produces exactly one StatePacket per actor, in
the registry's iteration order, mutates no actor, has length equal to the
actor count, and yields an identical packet list on a consecutive call on
the unchanged registry; the Untitled7.py copy behaves the same way. -/
theorem C4_sync_one_packet_per_actor (actors : List Actor) :
    (syncAllActors actors).1 = actors.map generateStatePacket ∧
    (syncAllActors actors).1.length = actors.length ∧
    (syncAllActors actors).2 = actors ∧
    (∀ i (h : i < actors.length),
      ∃ h2 : i < (syncAllActors actors).1.length,
        (syncAllActors actors).1.get ⟨i, h2⟩ =
          generateStatePacket (actors.get ⟨i, h⟩)) ∧
    (syncAllActors ((syncAllActors actors).2)).1 = (syncAllActors actors).1 ∧
    (syncAllActors7 actors).1 = actors.map generateStatePacket7 ∧
    (syncAllActors7 actors).1.length = actors.length ∧
    (syncAllActors7 actors).2 = actors := by
  refine ⟨rfl, by simp [syncAllActors], rfl, ?_, rfl, rfl,
    by simp [syncAllActors7], rfl⟩
  intro i h
  exact ⟨by simpa [syncAllActors] using h, by simp [syncAllActors]⟩

/-- Witness for C4 on a concrete one-actor registry. -/
theorem C4_sync_one_packet_per_actor_witness :
    (syncAllActors [sampleActor]).1 = [sampleActor].map generateStatePacket ∧
    (syncAllActors [sampleActor]).1.length = [sampleActor].length ∧
    (syncAllActors [sampleActor]).2 = [sampleActor] ∧
    (∀ i (h : i < [sampleActor].length),
      ∃ h2 : i < (syncAllActors [sampleActor]).1.length,
        (syncAllActors [sampleActor]).1.get ⟨i, h2⟩ =
          generateStatePacket ([sampleActor].get ⟨i, h⟩)) ∧
    (syncAllActors ((syncAllActors [sampleActor]).2)).1 =
      (syncAllActors [sampleActor]).1 ∧
    (syncAllActors7 [sampleActor]).1 = [sampleActor].map generateStatePacket7 ∧
    (syncAllActors7 [sampleActor]).1.length = [sampleActor].length ∧
    (syncAllActors7 [sampleActor]).2 = [sampleActor] :=
  C4_sync_one_packet_per_actor [sampleActor]

/-- Claim C5 counterexample: the generate_state_packet of Untitled7.py emits
no vel entry, so its packet fails the five-field wire shape the claim
asserts for every produced packet. -/
theorem C5_wire_shape_counterexample :
    specWireShape (generateStatePacket7 sampleActor) = false := by decide

/-- Claim C5 (amended): every packet from the Untitled9.py
generate_state_packet has exactly the wire shape id, pos, vel, health,
weapon; the Untitled7.py variant omits vel and carries exactly the keys id,
pos, health, weapon. -/
theorem C5_wire_shape (a : Actor) :
    specWireShape (generateStatePacket a) = true ∧
    (generateStatePacket7 a).map Prod.fst = ["id", "pos", "health", "weapon"] :=
  ⟨rfl, rfl⟩

/-- Claim C6 counterexample: the switch_weapon of the Untitled6.py
WeaponManager performs no table check: for the id 99_MISSING, absent from
the table, it overwrites active_weapon_id instead of leaving it unchanged
and signalling UnknownWeapon. -/
theorem C6_switch_weapon_counterexample :
    wlookup "99_MISSING" wmInitial.master_list = none ∧
    wmInitial.active_weapon_id = "01_PLASMA_RIFLE" ∧
    (switchWeapon6 wmInitial "99_MISSING").active_weapon_id = "99_MISSING" := by
  refine ⟨by decide, rfl, rfl⟩

/-- Claim C6 (amended): the full switch_weapon of Untitled15.py reports
UnknownWeapon and leaves the state unchanged on an absent id, and activates
any present id; the abridged Untitled6.py variant sets active_weapon_id
unconditionally. -/
theorem C6_switch_weapon (wm : WeaponManager) (newId : String) :
    (wlookup newId wm.master_list = none →
      switchWeapon wm newId = (wm, some WeaponError.unknownWeapon)) ∧
    (∀ d, wlookup newId wm.master_list = some d →
      switchWeapon wm newId = ({ wm with active_weapon_id := newId }, none)) ∧
    (switchWeapon6 wm newId).active_weapon_id = newId := by
  refine ⟨?_, ?_, rfl⟩
  · intro h
    simp [switchWeapon, h]
  · intro d h
    simp [switchWeapon, h]

/-- Witness for C6: the absent id 99_MISSING is rejected with the state
unchanged, and the present id 02_OMEGA_SHOTGUN is activated. -/
theorem C6_switch_weapon_witness :
    switchWeapon wmInitial "99_MISSING" =
      (wmInitial, some WeaponError.unknownWeapon) ∧
    switchWeapon wmInitial "02_OMEGA_SHOTGUN" =
      ({ wmInitial with active_weapon_id := "02_OMEGA_SHOTGUN" }, none) :=
  ⟨(C6_switch_weapon wmInitial "99_MISSING").1 (by decide),
   (C6_switch_weapon wmInitial "02_OMEGA_SHOTGUN").2.1 ⟨15, 90, 3/2, "SEMI", 8⟩
     rfl⟩

/-- Helper: the rate gate of try_fire in the cooling case: no state change,
no raycast. -/
theorem tryFire_cooling (wm : WeaponManager) (wd : WeaponData) (t : ℚ)
    (pos dir : Vec3) (offs : ℕ → ℚ × ℚ)
    (hwd : wlookup wm.active_weapon_id wm.master_list = some wd)
    (h : t - wm.last_fire_time < 60 / wd.rpm) :
    tryFire wm t pos dir offs = some ⟨wm, false, []⟩ := by
  simp [tryFire, hwd, h]

/-- Helper: the rate gate of try_fire in the ready case: last_fire_time is
set to the current time and one raycast per projectile is emitted. -/
theorem tryFire_ready (wm : WeaponManager) (wd : WeaponData) (t : ℚ)
    (pos dir : Vec3) (offs : ℕ → ℚ × ℚ)
    (hwd : wlookup wm.active_weapon_id wm.master_list = some wd)
    (h : 60 / wd.rpm ≤ t - wm.last_fire_time) :
    tryFire wm t pos dir offs = some ⟨{ wm with last_fire_time := t }, true,
      (List.range wd.projectiles).map (fun i =>
        if 0 < wd.spread then
          ⟨pos, Dir.normalized (vadd dir ((offs i).1, (offs i).2, 0)), wd.damage⟩
        else
          ⟨pos, Dir.exact dir, wd.damage⟩)⟩ := by
  simp [tryFire, hwd, not_lt.mpr h]

/-- Claim C3 counterexample: from the WeaponManager as constructed
(last_fire_time = 0, plasma rifle with rpm 450 active), try_fire at t = 0 is
a no-op carrying out no hit-test, because 0 - 0 < 60/450; the claim's
example asserts this first fire succeeds. -/
theorem C3_fire_rate_counterexample :
    tryFire wmInitial 0 vzero aimDir offsZero =
      some ⟨wmInitial, false, []⟩ :=
  tryFire_cooling wmInitial ⟨55, 450, 0, "AUTO", 1⟩ 0 vzero aimDir offsZero
    rfl (by norm_num [wmInitial])

/-- Claim C3 (amended): try_fire succeeds exactly when
current_time - last_fire_time is at least 60/rpm; on success it sets
last_fire_time to current_time; below the delay it is a no-op that performs
no hit-test and leaves the whole manager state unchanged. -/
theorem C3_fire_rate (wm : WeaponManager) (wd : WeaponData) (t : ℚ)
    (pos dir : Vec3) (offs : ℕ → ℚ × ℚ)
    (hwd : wlookup wm.active_weapon_id wm.master_list = some wd) :
    (t - wm.last_fire_time < 60 / wd.rpm →
      tryFire wm t pos dir offs = some ⟨wm, false, []⟩) ∧
    (60 / wd.rpm ≤ t - wm.last_fire_time →
      ∃ calls, tryFire wm t pos dir offs =
        some ⟨{ wm with last_fire_time := t }, true, calls⟩) :=
  ⟨fun h => tryFire_cooling wm wd t pos dir offs hwd h,
   fun h => ⟨_, tryFire_ready wm wd t pos dir offs hwd h⟩⟩

/-- Witness for C3: the spec scenario shifted so the first attempt is
ready: with rpm 450 (delay 2/15 s) a fire at t = 1 succeeds, a fire at
t = 1.05 is a no-op, and a fire at t = 1.15 succeeds again. -/
theorem C3_fire_rate_witness :
    (∃ calls, tryFire wmInitial 1 vzero aimDir offsZero =
      some ⟨{ wmInitial with last_fire_time := 1 }, true, calls⟩) ∧
    tryFire { wmInitial with last_fire_time := 1 } (21/20) vzero aimDir
        offsZero =
      some ⟨{ wmInitial with last_fire_time := 1 }, false, []⟩ ∧
    (∃ calls, tryFire { wmInitial with last_fire_time := 1 } (23/20) vzero
        aimDir offsZero =
      some ⟨{ wmInitial with last_fire_time := 23/20 }, true, calls⟩) :=
  ⟨(C3_fire_rate wmInitial ⟨55, 450, 0, "AUTO", 1⟩ 1 vzero aimDir offsZero
      rfl).2 (by norm_num [wmInitial]),
   (C3_fire_rate { wmInitial with last_fire_time := 1 } ⟨55, 450, 0, "AUTO", 1⟩
      (21/20) vzero aimDir offsZero rfl).1 (by norm_num),
   (C3_fire_rate { wmInitial with last_fire_time := 1 } ⟨55, 450, 0, "AUTO", 1⟩
      (23/20) vzero aimDir offsZero rfl).2 (by norm_num)⟩

/-- Helper: the effect of submitting a batch of jobs with add_job. -/
theorem foldl_submitJob (l : List Job) (s : PoolState) :
    l.foldl submitJob s =
      { s with pending := s.pending ++ l,
               unfinished := s.unfinished + l.length } := by
  induction l generalizing s with
  | nil => simp
  | cons j rest ih =>
      rw [List.foldl_cons, ih]
      cases s
      simp [submitJob, List.append_assoc]
      omega

/-- Helper: the pool state after submitting a batch to a fresh pool. -/
theorem initState_eq (jobs : List Job) (numWorkers : ℕ) :
    initState jobs numWorkers = ⟨jobs, [], [], jobs.length, numWorkers⟩ := by
  rw [initState, foldl_submitJob]
  simp [emptyPool]

/-- Helper: the pool invariant holds initially. -/
theorem poolInv_init (jobs : List Job) (numWorkers : ℕ) :
    PoolInv jobs numWorkers (initState jobs numWorkers) ∧
    (initState jobs numWorkers).inflight.length ≤
      (initState jobs numWorkers).workers := by
  rw [initState_eq]
  refine ⟨⟨?_, ?_, ?_⟩, ?_⟩ <;> simp [PoolInv]

/-- Helper: the pool invariant, together with the bound of in-flight jobs
by live workers, is preserved by every scheduler transition. -/
theorem poolInv_step {jobs : List Job} {numWorkers : ℕ} {s t : PoolState}
    (hinv : PoolInv jobs numWorkers s)
    (hfit : s.inflight.length ≤ s.workers) (hstep : Step s t) :
    PoolInv jobs numWorkers t ∧ t.inflight.length ≤ t.workers := by
  obtain ⟨hperm, hworkers, hcount⟩ := hinv
  cases hstep with
  | take j rest hw hp =>
      rw [hp] at hperm hcount
      refine ⟨⟨?_, ?_, ?_⟩, ?_⟩
      · simpa [List.append_assoc] using hperm
      · simpa using hworkers
      · simp at hcount ⊢
        omega
      · simp
        omega
  | finishOk j l1 l2 hin hf =>
      rw [hin] at hperm hcount hfit
      refine ⟨⟨?_, ?_, ?_⟩, ?_⟩
      · simp only [List.append_assoc, List.cons_append, List.nil_append,
          List.singleton_append] at hperm ⊢
        refine List.Perm.trans ?_ hperm
        exact List.Perm.append_left s.executed
          (List.Perm.symm (@List.perm_middle _ j l1 (l2 ++ s.pending)))
      · simpa [List.filter_append, hf] using hworkers
      · simp [List.filter_append, hf] at hcount ⊢
        omega
      · simp at hfit ⊢
        omega
  | finishFault j l1 l2 hin hf =>
      rw [hin] at hperm hcount hfit
      refine ⟨⟨?_, ?_, ?_⟩, ?_⟩
      · simp only [List.append_assoc, List.cons_append, List.nil_append,
          List.singleton_append] at hperm ⊢
        refine List.Perm.trans ?_ hperm
        exact List.Perm.append_left s.executed
          (List.Perm.symm (@List.perm_middle _ j l1 (l2 ++ s.pending)))
      · simp [List.filter_append, hf] at hworkers ⊢
        simp at hfit
        omega
      · simp [List.filter_append, hf] at hcount ⊢
        omega
      · simp at hfit ⊢
        omega

/-- Helper: every state reachable from a freshly loaded pool satisfies the
pool invariant. -/
theorem poolInv_reachable {jobs : List Job} {numWorkers : ℕ} {s : PoolState}
    (h : Reachable (initState jobs numWorkers) s) :
    PoolInv jobs numWorkers s ∧ s.inflight.length ≤ s.workers := by
  induction h with
  | refl => exact poolInv_init jobs numWorkers
  | tail hsteps hstep ih => exact poolInv_step ih.1 ih.2 hstep

/-- Helper: once a faulting job has been submitted, the unfinished counter
never returns to zero: the faulting job is pending, in flight, or executed
with task_done skipped. -/
theorem pool_fault_hangs {jobs : List Job} {numWorkers : ℕ} {s : PoolState}
    (hf : ∃ j ∈ jobs, j.faults = true)
    (hr : Reachable (initState jobs numWorkers) s) : 1 ≤ s.unfinished := by
  obtain ⟨j, hj, hjf⟩ := hf
  obtain ⟨⟨hperm, hworkers, hcount⟩, hfit⟩ := poolInv_reachable hr
  have hmem : j ∈ s.executed ++ s.inflight ++ s.pending :=
    hperm.mem_iff.mpr hj
  rcases List.mem_append.mp hmem with hmem2 | hp
  · rcases List.mem_append.mp hmem2 with he | hi
    · have : j ∈ s.executed.filter (fun j => j.faults) :=
        List.mem_filter.mpr ⟨he, by simp [hjf]⟩
      have := List.length_pos.mpr (List.ne_nil_of_mem this)
      omega
    · have := List.length_pos.mpr (List.ne_nil_of_mem hi)
      omega
  · have := List.length_pos.mpr (List.ne_nil_of_mem hp)
    omega

/-- Claim C1: for every batch of jobs submitted before the drain call and
every worker count, whenever wait_for_completion can return (the
unfinished-task counter is zero) every submitted job has been executed
exactly once (the execution log is a permutation of the submitted batch and
nothing is left pending or in flight); and with zero submitted jobs the
drain condition holds immediately in the initial state. -/
theorem C1_drain_all_executed_once (jobs : List Job) (numWorkers : ℕ)
    (s : PoolState) (hr : Reachable (initState jobs numWorkers) s)
    (hd : drainReturns s) :
    s.executed.Perm jobs ∧ s.pending = [] ∧ s.inflight = [] ∧
    drainReturns (initState [] numWorkers) := by
  obtain ⟨⟨hperm, hworkers, hcount⟩, hfit⟩ := poolInv_reachable hr
  have hd2 : s.unfinished = 0 := hd
  have hp : s.pending = [] := by
    have : s.pending.length = 0 := by omega
    exact List.length_eq_zero.mp this
  have hi : s.inflight = [] := by
    have : s.inflight.length = 0 := by omega
    exact List.length_eq_zero.mp this
  refine ⟨?_, hp, hi, ?_⟩
  · rw [hp, hi] at hperm
    simpa using hperm
  · simp [drainReturns, initState_eq]

/-- Witness for C1: a single worker draining the two-job batch jobA, jobB
reaches the drained state with both jobs executed exactly once. -/
theorem C1_drain_all_executed_once_witness :
    (⟨[], [], [jobA, jobB], 0, 1⟩ : PoolState).executed.Perm [jobA, jobB] ∧
    (⟨[], [], [jobA, jobB], 0, 1⟩ : PoolState).pending = [] ∧
    (⟨[], [], [jobA, jobB], 0, 1⟩ : PoolState).inflight = [] ∧
    drainReturns (initState [] 1) := by
  refine C1_drain_all_executed_once [jobA, jobB] 1 _ ?_ rfl
  have s1 : Step (initState [jobA, jobB] 1)
      ⟨[jobB], [jobA], [], 2, 1⟩ :=
    Step.take (initState [jobA, jobB] 1) jobA [jobB] (by decide) (by decide)
  have s2 : Step (⟨[jobB], [jobA], [], 2, 1⟩ : PoolState)
      ⟨[jobB], [], [jobA], 1, 1⟩ :=
    Step.finishOk _ jobA [] [] rfl rfl
  have s3 : Step (⟨[jobB], [], [jobA], 1, 1⟩ : PoolState)
      ⟨[], [jobB], [jobA], 1, 1⟩ :=
    Step.take _ jobB [] (by decide) rfl
  have s4 : Step (⟨[], [jobB], [jobA], 1, 1⟩ : PoolState)
      ⟨[], [], [jobA, jobB], 0, 1⟩ :=
    Step.finishOk _ jobB [] [] rfl rfl
  exact Relation.ReflTransGen.tail
    (Relation.ReflTransGen.tail
      (Relation.ReflTransGen.tail
        (Relation.ReflTransGen.tail Relation.ReflTransGen.refl s1) s2) s3) s4

/-- Claim C2 counterexample: with one worker and the single faulting job
faultJob, the pool reaches crashState, where the worker has died executing
the job (zero live workers remain even though the job ran) and the
unfinished counter is stuck at one; moreover every reachable state keeps
the counter at least one, so wait_for_completion after the fault never
returns.  This refutes fault isolation: the worker does crash, the job is
never marked complete, and drain hangs. -/
theorem C2_fault_counterexample :
    Reachable (initState [faultJob] 1) crashState ∧
    crashState.workers = 0 ∧ crashState.executed = [faultJob] ∧
    crashState.unfinished = 1 ∧
    (∀ t, Reachable (initState [faultJob] 1) t → 1 ≤ t.unfinished) := by
  refine ⟨?_, rfl, rfl, rfl, ?_⟩
  · have s1 : Step (initState [faultJob] 1) ⟨[], [faultJob], [], 1, 1⟩ :=
      Step.take (initState [faultJob] 1) faultJob [] (by decide) (by decide)
    have s2 : Step (⟨[], [faultJob], [], 1, 1⟩ : PoolState) crashState :=
      Step.finishFault _ faultJob [] [] rfl rfl
    exact Relation.ReflTransGen.tail
      (Relation.ReflTransGen.tail Relation.ReflTransGen.refl s1) s2
  · intro t ht
    exact pool_fault_hangs ⟨faultJob, by simp, rfl⟩ ht

/-- Claim C2 (amended): a job whose body raises crashes its worker and is
never marked complete: in every state reachable after submitting a batch
containing a faulting job the unfinished counter stays positive, so a
subsequent wait_for_completion never returns; and once the queue and the
in-flight set are empty, strictly fewer workers are alive than were
started. -/
theorem C2_fault_crashes_worker (jobs : List Job) (numWorkers : ℕ)
    (t : PoolState) (hf : ∃ j ∈ jobs, j.faults = true)
    (hr : Reachable (initState jobs numWorkers) t) :
    1 ≤ t.unfinished ∧
    (t.pending = [] → t.inflight = [] → t.workers < numWorkers) := by
  refine ⟨pool_fault_hangs hf hr, ?_⟩
  intro hp hi
  obtain ⟨j, hj, hjf⟩ := hf
  obtain ⟨⟨hperm, hworkers, hcount⟩, hfit⟩ := poolInv_reachable hr
  rw [hp, hi] at hperm
  have he : j ∈ t.executed := by
    have := hperm.mem_iff.mpr hj
    simpa using this
  have : j ∈ t.executed.filter (fun j => j.faults) :=
    List.mem_filter.mpr ⟨he, by simp [hjf]⟩
  have := List.length_pos.mpr (List.ne_nil_of_mem this)
  omega

/-- Witness for C2 at the concrete crashed one-worker pool. -/
theorem C2_fault_crashes_worker_witness :
    1 ≤ crashState.unfinished ∧
    (crashState.pending = [] → crashState.inflight = [] →
      crashState.workers < 1) := by
  refine C2_fault_crashes_worker [faultJob] 1 crashState
    ⟨faultJob, by simp, rfl⟩ ?_
  have s1 : Step (initState [faultJob] 1) ⟨[], [faultJob], [], 1, 1⟩ :=
    Step.take (initState [faultJob] 1) faultJob [] (by decide) (by decide)
  have s2 : Step (⟨[], [faultJob], [], 1, 1⟩ : PoolState) crashState :=
    Step.finishFault _ faultJob [] [] rfl rfl
  exact Relation.ReflTransGen.tail
    (Relation.ReflTransGen.tail Relation.ReflTransGen.refl s1) s2

/-- Claim C8 counterexample: JobSystem.__init__ contains no worker-count
validation, so constructing the pool with worker count 0 succeeds (no
PoolConfigurationError is reported at construction time) and yields a pool
with zero workers. -/
theorem C8_zero_workers_counterexample :
    mkJobSystem 0 = Except.ok (emptyPool 0) ∧ (emptyPool 0).workers = 0 :=
  ⟨rfl, rfl⟩

/-- Claim C8 (amended): construction succeeds for every worker count,
including 0; a pool whose workers are all gone and whose in-flight set is
empty can take no scheduler step at all, so a zero-worker pool never
executes any submitted job. -/
theorem C8_no_construction_validation (numWorkers : ℕ) (s t : PoolState)
    (h0 : s.workers = 0) (hi : s.inflight = []) :
    mkJobSystem numWorkers = Except.ok (emptyPool numWorkers) ∧
    ¬ Step s t := by
  refine ⟨rfl, ?_⟩
  intro hstep
  cases hstep with
  | take j rest hw hp =>
      rw [h0] at hw
      exact absurd hw (Nat.not_lt_zero _)
  | finishOk j l1 l2 hin hf =>
      rw [hi] at hin
      cases l1 <;> simp at hin
  | finishFault j l1 l2 hin hf =>
      rw [hi] at hin
      cases l1 <;> simp at hin

/-- Witness for C8: the zero-worker pool is constructed without error and
admits no step towards any state. -/
theorem C8_no_construction_validation_witness :
    mkJobSystem 0 = Except.ok (emptyPool 0) ∧
    ¬ Step (emptyPool 0) crashState :=
  C8_no_construction_validation 0 (emptyPool 0) crashState rfl rfl

/-- Helper: a nonzero rational vector has positive squared norm. -/
theorem sqnormQ_pos (v : Vec3) (hv : v ≠ vzero) : 0 < sqnormQ v := by
  obtain ⟨a, b, c⟩ := v
  have h : a ≠ 0 ∨ b ≠ 0 ∨ c ≠ 0 := by
    by_contra hn
    push_neg at hn
    exact hv (by simp [vzero, Prod.ext_iff, hn.1, hn.2.1, hn.2.2])
  simp only [sqnormQ]
  rcases h with h | h | h <;>
    nlinarith [mul_self_pos.mpr h, mul_self_nonneg a, mul_self_nonneg b,
      mul_self_nonneg c]

/-- Helper: the real squared norm of a cast vector is the cast of the
rational squared norm. -/
theorem sqnormR_toR (v : Vec3) : sqnormR (toR v) = ((sqnormQ v : ℚ) : ℝ) := by
  simp only [sqnormR, toR, sqnormQ]
  push_cast
  ring

/-- Helper: normalizing a nonzero vector yields a unit vector: the real
semantics of the spread > 0 branch of try_fire has squared norm one. -/
theorem dirValR_normalized_unit (v : Vec3) (hv : v ≠ vzero) :
    sqnormR (dirValR (Dir.normalized v)) = 1 := by
  have hq : 0 < sqnormQ v := sqnormQ_pos v hv
  have hpos : 0 < sqnormR (toR v) := by
    rw [sqnormR_toR]
    exact_mod_cast hq
  have hpos2 : 0 < (toR v).1 * (toR v).1 + (toR v).2.1 * (toR v).2.1 +
      (toR v).2.2 * (toR v).2.2 := by
    simpa [sqnormR] using hpos
  simp only [dirValR, sqnormR]
  rw [div_mul_div_comm, div_mul_div_comm, div_mul_div_comm,
    div_add_div_same, div_add_div_same,
    Real.mul_self_sqrt (le_of_lt hpos2)]
  exact div_self (ne_of_gt hpos2)

/-- Helper: the exact-direction semantics of a unit aim direction is a unit
vector. -/
theorem dirValR_exact_unit (v : Vec3) (hunit : sqnormQ v = 1) :
    sqnormR (dirValR (Dir.exact v)) = 1 := by
  have := sqnormR_toR v
  simp only [dirValR]
  rw [this, hunit]
  norm_num

/-- Claim C7: a successful try_fire whose active-weapon table entry has
projectile count k and spread s invokes the external hit-test exactly k
times; every call carries the player position and the table damage and,
under the nondegeneracy hypotheses (unit aim direction and nonvanishing
perturbed vectors), a unit-length direction; with s = 0 every direction is
exactly the aim direction (in particular k = 1, s = 0 emits the single aim
ray); with s > 0 the i-th direction is the aim direction perturbed on the x
and y axes by the i-th uniform draw, bounded by the spread, re-normalized. -/
theorem C7_projectile_directions (wm : WeaponManager) (wd : WeaponData)
    (t : ℚ) (pos dir : Vec3) (offs : ℕ → ℚ × ℚ)
    (hwd : wlookup wm.active_weapon_id wm.master_list = some wd)
    (hready : 60 / wd.rpm ≤ t - wm.last_fire_time)
    (hunit : sqnormQ dir = 1)
    (hoffs : ∀ i, -wd.spread ≤ (offs i).1 ∧ (offs i).1 ≤ wd.spread ∧
      -wd.spread ≤ (offs i).2 ∧ (offs i).2 ≤ wd.spread)
    (hnz : ∀ i, vadd dir ((offs i).1, (offs i).2, 0) ≠ vzero) :
    ∃ res, tryFire wm t pos dir offs = some res ∧ res.fired = true ∧
      res.calls.length = wd.projectiles ∧
      (∀ c ∈ res.calls, c.start = pos ∧ c.damage = wd.damage ∧
        sqnormR (dirValR c.dir) = 1) ∧
      (wd.spread = 0 → ∀ c ∈ res.calls, c.dir = Dir.exact dir) ∧
      (wd.projectiles = 1 → wd.spread = 0 →
        res.calls = [⟨pos, Dir.exact dir, wd.damage⟩]) ∧
      (0 < wd.spread → ∀ i (hi : i < res.calls.length),
        ∃ ox oy, -wd.spread ≤ ox ∧ ox ≤ wd.spread ∧ -wd.spread ≤ oy ∧
          oy ≤ wd.spread ∧
          (res.calls.get ⟨i, hi⟩).dir =
            Dir.normalized (vadd dir (ox, oy, 0))) := by
  refine ⟨_, tryFire_ready wm wd t pos dir offs hwd hready, rfl, ?_, ?_, ?_,
    ?_, ?_⟩
  · simp
  · intro c hc
    rw [List.mem_map] at hc
    obtain ⟨i, hi, rfl⟩ := hc
    by_cases hsp : 0 < wd.spread
    · simp only [if_pos hsp]
      exact ⟨by trivial, by trivial, dirValR_normalized_unit _ (hnz i)⟩
    · simp only [if_neg hsp]
      exact ⟨by trivial, by trivial, dirValR_exact_unit dir hunit⟩
  · intro h0 c hc
    rw [List.mem_map] at hc
    obtain ⟨i, hi, rfl⟩ := hc
    have hns : ¬ (0 : ℚ) < wd.spread := by
      rw [h0]
      exact lt_irrefl 0
    simp [hns]
  · intro hk h0
    have hns : ¬ (0 : ℚ) < wd.spread := by
      rw [h0]
      exact lt_irrefl 0
    simp [hk, hns, List.range_succ]
  · intro hsp i hi
    refine ⟨(offs i).1, (offs i).2, (hoffs i).1, (hoffs i).2.1,
      (hoffs i).2.2.1, (hoffs i).2.2.2, ?_⟩
    simp [List.get_eq_getElem, hsp]

/-- Witness for C7: the spec's shotgun scenario — spread 1.5, 8
projectiles, a ready fire at t = 1 with the unit aim (0, 0, -1) and the
constant uniform draw (1, 1/2). -/
theorem C7_projectile_directions_witness :
    ∃ res, tryFire wmShotgun 1 vzero aimDir offsConst = some res ∧
      res.fired = true ∧
      res.calls.length = 8 ∧
      (∀ c ∈ res.calls, c.start = vzero ∧ c.damage = 15 ∧
        sqnormR (dirValR c.dir) = 1) ∧
      ((3/2 : ℚ) = 0 → ∀ c ∈ res.calls, c.dir = Dir.exact aimDir) ∧
      ((8 : ℕ) = 1 → (3/2 : ℚ) = 0 →
        res.calls = [⟨vzero, Dir.exact aimDir, 15⟩]) ∧
      ((0 : ℚ) < 3/2 → ∀ i (hi : i < res.calls.length),
        ∃ ox oy, -(3/2 : ℚ) ≤ ox ∧ ox ≤ 3/2 ∧ -(3/2 : ℚ) ≤ oy ∧ oy ≤ 3/2 ∧
          (res.calls.get ⟨i, hi⟩).dir =
            Dir.normalized (vadd aimDir (ox, oy, 0))) :=
  C7_projectile_directions wmShotgun ⟨15, 90, 3/2, "SEMI", 8⟩ 1 vzero aimDir
    offsConst rfl (by norm_num [wmShotgun])
    (by norm_num [sqnormQ, aimDir])
    (fun i => by norm_num [offsConst])
    (fun i h => by
      have h1 := congrArg Prod.fst h
      simp [vadd, aimDir, offsConst, vzero] at h1)

/-- Claim C9 counterexample: with a registry containing a bot actor, the
claimed per-frame job set contains an AI-update job for that bot, but the
frame loop trace of the code submits only the physics and streaming jobs. -/
theorem C9_frame_jobs_counterexample :
    submittedFrameJobs (frameLoopEvents 1 vzero) ≠
      specFrameJobs 1 [sampleActor, sampleBot] vzero := by
  decide

/-- Claim C9 (amended): execute_frame_jobs submits exactly two jobs — the
physics step over the registry and the streaming update parameterized by
the player position, with no per-bot AI jobs — then drains, and the
replicator sync of the driver loop happens strictly after the drain; the
submitted job set coincides with the claimed one exactly for bot-free
registries. -/
theorem C9_frame_schedule (dt : ℚ) (pos : Vec3) (actors : List Actor) :
    frameLoopEvents dt pos =
      [FrameEvent.submit (FrameJob.physicsStep dt),
       FrameEvent.submit (FrameJob.streamingUpdate pos),
       FrameEvent.drain, FrameEvent.sync] ∧
    (submittedFrameJobs (frameLoopEvents dt pos) = specFrameJobs dt actors pos
      ↔ actors.filter (fun a => a.is_bot) = []) := by
  refine ⟨rfl, ?_, ?_⟩
  · intro h
    have hL : submittedFrameJobs (frameLoopEvents dt pos) =
        [FrameJob.physicsStep dt, FrameJob.streamingUpdate pos] := rfl
    rw [hL, specFrameJobs] at h
    cases hmap : (actors.filter (fun a => a.is_bot)).map
        (fun a => FrameJob.aiUpdate a.name) with
    | nil => exact List.map_eq_nil_iff.mp hmap
    | cons jb rest =>
        rw [hmap] at h
        simp at h
  · intro h
    simp [submittedFrameJobs, frameLoopEvents, executeFrameJobsEvents,
      specFrameJobs, h]

/-- Witness for C9 on a bot-free registry: the event trace is as stated and
the submitted job set then agrees with the claimed job set. -/
theorem C9_frame_schedule_witness :
    frameLoopEvents 1 vzero =
      [FrameEvent.submit (FrameJob.physicsStep 1),
       FrameEvent.submit (FrameJob.streamingUpdate vzero),
       FrameEvent.drain, FrameEvent.sync] ∧
    submittedFrameJobs (frameLoopEvents 1 vzero) =
      specFrameJobs 1 [sampleActor] vzero :=
  ⟨(C9_frame_schedule 1 vzero [sampleActor]).1,
   (C9_frame_schedule 1 vzero [sampleActor]).2.mpr (by decide)⟩

end Aura
